import Mathlib

/-!
# UVFReader/DataSource.h: synthetic volume generator and UVF assembly

A verification development for `src/UVFReader/DataSource.h`.

Modelling conventions

* `uint32_t` / `uint64_t` values are natural numbers; every operation that can
  wrap in the source carries an explicit `% 2 ^ 32` or `% 2 ^ 64`.
* `float` / `double` values are rationals.  Sums, products and quotients are
  exact; the `<cmath>` functions (`sqrt`, `atan2`, `sin`, `cos`, `pow`) are
  fields of a `Libm` record, so every statement holds for any implementation of
  them.
* Collaborators whose code is outside this header (the raw file, the UVF
  container, the bricking and histogram engines) are represented by the calls
  made to them, recorded in order as `Event`s, and by the boolean each fallible
  call answers, supplied in a `Collab` record.
-/

namespace DataSource

/-! ## Machine integers and vectors -/

/-- Wrap to `uint32_t`. -/
def u32 (n : Nat) : Nat := n % 2 ^ 32

/-- Wrap to `uint64_t`. -/
def u64 (n : Nat) : Nat := n % 2 ^ 64

/-- Unsigned 64 bit subtraction `a - b`, which wraps around below zero. -/
def u64sub (a b : Nat) : Nat := (a % 2 ^ 64 + 2 ^ 64 - b % 2 ^ 64) % 2 ^ 64

/-- Tuvok `UINT64VECTOR3`: three `uint64_t` components. -/
structure UINT64VECTOR3 where
  x : Nat
  y : Nat
  z : Nat
  deriving DecidableEq, Repr

/-- Every component is a `uint64_t` value. -/
def UINT64VECTOR3.inRange (v : UINT64VECTOR3) : Prop :=
  v.x < 2 ^ 64 ∧ v.y < 2 ^ 64 ∧ v.z < 2 ^ 64

/-- Tuvok `VECTOR3<T>::volume()`, `x*y*z` in `uint64_t`. -/
def UINT64VECTOR3.volume (v : UINT64VECTOR3) : Nat := u64 (u64 (v.x * v.y) * v.z)

/-- Tuvok `VECTOR3<T>::maxVal()`, `MAX(x, MAX(y, z))`. -/
def UINT64VECTOR3.maxVal (v : UINT64VECTOR3) : Nat := max v.x (max v.y v.z)

/-! ## Field evaluator (lines 30-93) -/

/-- The `<cmath>` functions called by the header, on `double` values. -/
structure Libm where
  sqrt : ℚ → ℚ
  atan2 : ℚ → ℚ → ℚ
  sin : ℚ → ℚ
  cos : ℚ → ℚ
  pow : ℚ → ℚ → ℚ

/-- Conversion of a `uint32_t` argument to an `int` parameter. -/
def toInt32 (n : Nat) : Int :=
  if n % 2 ^ 32 < 2 ^ 31 then ((n % 2 ^ 32 : Nat) : Int) else ((n % 2 ^ 32 : Nat) : Int) - 2 ^ 32

/-- Lines 30-33. -/
def radius (L : Libm) (x y z : ℚ) : ℚ := L.sqrt (x * x + y * y + z * z)

/-- Lines 35-38. -/
def phi (L : Libm) (x y : ℚ) : ℚ := L.atan2 y x

/-- Lines 40-43. -/
def theta (L : Libm) (x y z : ℚ) : ℚ := L.atan2 (L.sqrt (x * x + y * y)) z

/-- Lines 45-50. -/
def PowerX (L : Libm) (x y z cx : ℚ) (n : Int) (power : ℚ) : ℚ :=
  cx + power * L.sin (theta L x y z * n) * L.cos (phi L x y * n)

/-- Lines 52-58. -/
def PowerY (L : Libm) (x y z cy : ℚ) (n : Int) (power : ℚ) : ℚ :=
  cy + power * L.sin (theta L x y z * n) * L.sin (phi L x y * n)

/-- Lines 60-64. -/
def PowerZ (L : Libm) (x y z cz : ℚ) (n : Int) (power : ℚ) : ℚ :=
  cz + power * L.cos (theta L x y z * n)

/-- The loop variables `fx, fy, fz, r` of `ComputeMandelbulb`. -/
structure Iterate where
  fx : ℚ
  fy : ℚ
  fz : ℚ
  r : ℚ
  deriving DecidableEq

/-- Lines 78-88 up to the comparison: one update of the iterate and of `r`. -/
def mandelStep (L : Libm) (sx sy sz : ℚ) (n : Nat) (s : Iterate) : Iterate :=
  let fPower := L.pow s.r (n : ℚ)
  let fx_ := PowerX L s.fx s.fy s.fz sx (toInt32 n) fPower
  let fy_ := PowerY L s.fx s.fy s.fz sy (toInt32 n) fPower
  let fz_ := PowerZ L s.fx s.fy s.fz sz (toInt32 n) fPower
  { fx := fx_, fy := fy_, fz := fz_, r := radius L fx_ fy_ fz_ }

/-- The `for (uint32_t i = 0; i < iMaxIterations; i++)` loop of lines 76-92, entered
with `remaining = iMaxIterations - i` passes still to run. -/
def mandelLoop (L : Libm) (sx sy sz : ℚ) (n iMaxIterations : Nat) (fBailout : ℚ) :
    Nat → Nat → Iterate → ℚ
  | 0, _, _ => 1
  | remaining + 1, i, s =>
    let s1 := mandelStep L sx sy sz n s
    if s1.r > fBailout then (i : ℚ) / (iMaxIterations : ℚ)
    else mandelLoop L sx sy sz n iMaxIterations fBailout remaining (i + 1) s1

/-- The iterate on entry to the loop: `fx = fy = fz = 0`, `r = radius(fx, fy, fz)`. -/
def mandelInit (L : Libm) : Iterate := { fx := 0, fy := 0, fz := 0, r := radius L 0 0 0 }

/-- Lines 66-93. -/
def ComputeMandelbulb (L : Libm) (sx sy sz : ℚ) (n iMaxIterations : Nat) (fBailout : ℚ) : ℚ :=
  mandelLoop L sx sy sz n iMaxIterations fBailout iMaxIterations 0 (mandelInit L)

/-- The iterate after `k` updates, used to state which iteration escapes. -/
def mandelIterate (L : Libm) (sx sy sz : ℚ) (n : Nat) : Nat → Iterate
  | 0 => mandelInit L
  | k + 1 => mandelStep L sx sy sz n (mandelIterate L sx sy sz n k)

/-! ## Streaming volume writer (lines 95-155) -/

/-- `std::numeric_limits<T>::max()` for the unsigned type of `bits` bits. -/
def numericMax (bits : Nat) : Nat := 2 ^ bits - 1

/-- `sizeof(T)`: 1 for `uint8_t`, 2 for `uint16_t`. -/
def sizeofT (bits : Nat) : Nat := bits / 8

/-- `static_cast<T>(v)` of a non-negative floating value: the fraction is dropped.
C++ leaves the conversion of a value outside the range of `T` undefined; here it wraps. -/
def castT (bits : Nat) (v : ℚ) : Nat := Int.toNat ⌊v⌋ % 2 ^ bits

/-- Lines 142-148, the `bMandelbulb == false` branch.  `FLOATVECTOR3` division is
componentwise, `0.5f - v` subtracts every component from `0.5f`, and `length()` is
the square root of the sum of the squared components. -/
def radialSample (L : Libm) (bits : Nat) (vSize : UINT64VECTOR3) (x y z : Nat) : Nat :=
  let px : ℚ := (x : ℚ) / (vSize.x : ℚ)
  let py : ℚ := (y : ℚ) / (vSize.y : ℚ)
  let pz : ℚ := (z : ℚ) / (vSize.z : ℚ)
  let len : ℚ := L.sqrt ((1 / 2 - px) * (1 / 2 - px) + (1 / 2 - py) * (1 / 2 - py)
    + (1 / 2 - pz) * (1 / 2 - pz))
  castT bits (max 0 ((1 / 2 - len) * (numericMax bits : ℚ) * 2))

/-- Lines 130-140, the `bMandelbulb == true` branch. -/
def mandelbulbSample (L : Libm) (bits : Nat) (vSize : UINT64VECTOR3) (x y z : Nat) : Nat :=
  castT bits (ComputeMandelbulb L
      (9 / 4 * (x : ℚ) / (u64sub vSize.x 1 : ℚ) - 9 / 8)
      (9 / 4 * (y : ℚ) / (u64sub vSize.y 1 : ℚ) - 9 / 8)
      (9 / 4 * (z : ℚ) / (u64sub vSize.z 1 : ℚ) - 9 / 8)
      8 (numericMax bits) 4
    * (numericMax bits : ℚ))

/-- Lines 129-148: the value stored in `source[x]`. -/
def sample (L : Libm) (bits : Nat) (bMandelbulb : Bool) (vSize : UINT64VECTOR3)
    (x y z : Nat) : Nat :=
  if bMandelbulb then mandelbulbSample L bits vSize x y z else radialSample L bits vSize x y z

/-- One call `pDummyData->WriteRAW((uint8_t*)source, vSize.x*sizeof(T))`: the samples
the row loop stored and the byte count passed. -/
structure RowWrite where
  source : List Nat
  bytes : Nat
  deriving DecidableEq

/-- Lines 128-150 for fixed `y`, `z`.  The row loop counts a signed `int64_t x` up to
`int64_t(vSize.x)`, so it stores nothing when `vSize.x` is `2^63` or more. -/
def generateRow (L : Libm) (bits : Nat) (bMandelbulb : Bool) (vSize : UINT64VECTOR3)
    (z y : Nat) : RowWrite :=
  { source := (List.range (if vSize.x < 2 ^ 63 then vSize.x else 0)).map
      (fun x => sample L bits bMandelbulb vSize x y z),
    bytes := u64 (vSize.x * sizeofT bits) }

/-- Lines 104-152: the `WriteRAW` calls in the order they are made, `z` outermost,
then `y`.  The progress messages of the same loop are `progressStep` below. -/
def GenerateVolumeData (L : Libm) (bits : Nat) (bMandelbulb : Bool) (vSize : UINT64VECTOR3) :
    List RowWrite :=
  (List.range vSize.z).flatMap (fun z =>
    (List.range vSize.y).map (fun y => generateRow L bits bMandelbulb vSize z y))

/-- Total number of bytes handed to `WriteRAW`. -/
def totalBytes (ws : List RowWrite) : Nat := (ws.map RowWrite.bytes).sum

/-! ## Progress reporting of `GenerateVolumeData` (lines 102-124) -/

/-- What one pass through the `if (z < vSize.z/2) ... else if (z > vSize.z/2) ... else`
block does: the message logged, if any, carries the milliseconds it formats. -/
inductive Progress where
  | elapsedTime (miliSecs : Nat)
  | remainingTime (miliSecs : Nat)
  | halfWay
  deriving DecidableEq, Repr

/-- The value assigned at line 115,
`miliSecs = std::max<uint64_t>(0, miliSecsHalfWay*2-miliSecs)`, all in `uint64_t`. -/
def remainingMiliSecs (miliSecsHalfWay miliSecs : Nat) : Nat :=
  max 0 (u64sub (u64 (miliSecsHalfWay * 2)) miliSecs)

/-- Lines 105-124 for one slice `z`: returns the report and the new value of
`miliSecsHalfWay`.  `miliSecs` is `uint64_t(timer.Elapsed())`. -/
def progressStep (vSizeZ z miliSecs miliSecsHalfWay : Nat) : Progress × Nat :=
  if z < vSizeZ / 2 then
    (Progress.elapsedTime miliSecs, miliSecsHalfWay)
  else if z > vSizeZ / 2 then
    (Progress.remainingTime (remainingMiliSecs miliSecsHalfWay miliSecs), miliSecsHalfWay)
  else
    (Progress.halfWay, miliSecs)

/-! ## LOD level count (lines 264-272) -/

/-- The loop `while (iMaxVal > iBrickSize) { iMaxVal /= 2; iLodLevelCount++; }`.
It runs at most 32 times, so the `uint64_t` counter cannot wrap. -/
def lodLoop (iMaxVal iBrickSize iLodLevelCount : Nat) : Nat :=
  if iMaxVal > iBrickSize then
    lodLoop (iMaxVal / 2) iBrickSize (iLodLevelCount + 1)
  else
    iLodLevelCount
termination_by iMaxVal
decreasing_by omega

/-- Lines 264-270: `iLodLevelCount = 1`, `iMaxVal = uint32_t(vSize.maxVal())`,
then the loop. -/
def lodLevelCount (vSize : UINT64VECTOR3) (iBrickSize : Nat) : Nat :=
  lodLoop (u32 vSize.maxVal) iBrickSize 1

/-! ## Container assembly (lines 157-414) -/

/-- The raster block fields that lines 245-288 fill in. -/
structure RasterDataBlock where
  strBlockID : String
  ulDomainSemantics : List String
  ulDomainSize : List Nat
  ulLODDecFactor : List Nat
  ulLODGroups : List Nat
  ulLODLevelCount : List Nat
  scalarBitSize : Nat
  ulBrickSize : List Nat
  ulBrickOverlap : List Nat
  vScale : List ℚ
  deriving DecidableEq

/-- The blocks handed to `uvfFile.AddDataBlock`. -/
inductive Block where
  | dataBlock (strBlockID : String)
  | tocBlock (strBlockID : String)
  | rasterBlock (b : RasterDataBlock)
  | histogram1D
  | histogram2D
  | maxMinData
  | keyValuePairs (pairs : List (String × String))
  deriving DecidableEq

/-- The calls `CreateUVFFile` makes on its collaborators, in program order. -/
inductive Event where
  | rawCreate (rawFilename : String) (size : Nat)
  | rawWrite (w : RowWrite)
  | rawClose
  | rawOpen
  | rawDelete
  | setGlobalHeader (checksum : String)
  | addDataBlock (b : Block)
  | tocFlatDataToBrickedLOD (rawFilename : String) (bits : Nat) (vSize : UINT64VECTOR3)
      (brick : Nat) (overlap : Nat)
  | rasterFlatDataToBrickedLOD (bits : Nat)
  | verify
  | histogram1DCompute
  | histogram1DCompress (maxBuckets : Nat)
  | histogram2DCompute
  | uvfCreate
  | uvfClose
  | tError (msg : String)
  deriving DecidableEq

/-- What lies outside this header: the `SysTools` string helpers, the constant
`DEFAULT_BRICKOVERLAP`, the host byte order, the maths library, and the answer of
every fallible collaborator call (each is made at most once in a run). -/
structure Env where
  GetExt : String → String
  ToLowerCase : String → String
  ChangeExt : String → String → String
  ToString : Nat → String
  DEFAULT_BRICKOVERLAP : Nat
  IsLittleEndian : Bool
  libm : Libm
  rawCreateOk : Bool
  tocBrickOk : Bool
  rasterBrickOk : Bool
  verifyOk : Bool
  strProblemDesc : String
  addPayloadOk : Bool
  histogram1DOk : Bool
  histogram2DOk : Bool
  uvfCreateOk : Bool

/-- `EXIT_SUCCESS` of `<cstdlib>`. -/
def EXIT_SUCCESS : Nat := 0

/-- Conversion of an integer to `bool`. -/
def toBool (n : Nat) : Bool := n != 0

/-- Line 163: `bGenerateUVF`. -/
def bGenerateUVF (E : Env) (strUVFName : String) : Bool :=
  E.ToLowerCase (E.GetExt strUVFName) == "uvf"

/-- Line 165: `rawFilename`. -/
def rawFilename (E : Env) (strUVFName : String) : String :=
  if bGenerateUVF E strUVFName then E.ChangeExt strUVFName "raw" else strUVFName

/-- Line 171: the size passed to `dummyData->Create`, `vSize.volume()*iBitSize/8`
evaluated in `uint64_t`. -/
def rawStoreSize (vSize : UINT64VECTOR3) (iBitSize : Nat) : Nat :=
  u64 (vSize.volume * iBitSize) / 8

/-- Lines 245-288: the raster block descriptor. -/
def makeRasterBlock (E : Env) (vSize : UINT64VECTOR3) (iBitSize iBrickSize : Nat) :
    RasterDataBlock :=
  { strBlockID := "Test Volume 1",
    ulDomainSemantics := ["DS_X", "DS_Y", "DS_Z"],
    ulDomainSize := [vSize.x, vSize.y, vSize.z],
    ulLODDecFactor := [2, 2, 2],
    ulLODGroups := [0, 0, 0],
    ulLODLevelCount := [lodLevelCount vSize iBrickSize],
    scalarBitSize := iBitSize,
    ulBrickSize := [iBrickSize, iBrickSize, iBrickSize],
    ulBrickOverlap := [E.DEFAULT_BRICKOVERLAP * 2, E.DEFAULT_BRICKOVERLAP * 2,
      E.DEFAULT_BRICKOVERLAP * 2],
    vScale := [(vSize.maxVal : ℚ) / (vSize.x : ℚ), (vSize.maxVal : ℚ) / (vSize.y : ℚ),
      (vSize.maxVal : ℚ) / (vSize.z : ℚ)] }

/-- Lines 386-398: the metadata pairs. -/
def metaPairs (E : Env) (iBitSize : Nat) : List (String × String) :=
  [("Data Source", "This file was created by the UVFReader"),
   ("Description", "Dummy file for testing purposes."),
   ("Source Endianess", if E.IsLittleEndian then "little" else "big"),
   ("Source Type", "integer"),
   ("Source Bit width", E.ToString iBitSize)]

/-- Lines 330-413, from `if (!bKeepRaw) dummyData->Delete();` to the end; `tr` is the
trace so far and `payload` is `pTestVolume`. -/
def finishUVF (E : Env) (strUVFName : String) (iBitSize : Nat) (bKeepRaw : Bool)
    (payload : Block) (tr : List Event) : Bool × List Event :=
  let tr := if !bKeepRaw then tr ++ [Event.rawDelete] else tr
  let tr := tr ++ [Event.addDataBlock payload]
  if !E.addPayloadOk then
    (false, tr ++ [Event.tError "AddDataBlock failed!", Event.uvfClose])
  else
  let tr := tr ++ [Event.histogram1DCompute]
  if !E.histogram1DOk then
    (false, tr ++ [Event.tError "Computation of 1D Histogram failed!", Event.uvfClose])
  else
  let tr := tr ++ [Event.histogram1DCompress 4096, Event.histogram2DCompute]
  if !E.histogram2DOk then
    (false, tr ++ [Event.tError "Computation of 2D Histogram failed!", Event.uvfClose])
  else
  let tr := tr ++ [Event.addDataBlock Block.histogram1D, Event.addDataBlock Block.histogram2D,
    Event.addDataBlock Block.maxMinData,
    Event.addDataBlock (Block.keyValuePairs (metaPairs E iBitSize)), Event.uvfCreate]
  if !E.uvfCreateOk then
    (false, tr ++ [Event.tError ("Failed to create UVF file " ++ strUVFName)])
  else
    (true, tr ++ [Event.uvfClose])

/-- Lines 157-414.  Returns the `bool` result and the collaborator calls made. -/
def CreateUVFFile (E : Env) (strUVFName : String) (vSize : UINT64VECTOR3) (iBitSize : Nat)
    (bMandelbulb : Bool) (iBrickSize : Nat) (bUseToCBlock bKeepRaw : Bool) :
    Bool × List Event :=
  let rawName := rawFilename E strUVFName
  let tr := [Event.rawCreate rawName (rawStoreSize vSize iBitSize)]
  if !E.rawCreateOk then
    (false, tr ++ [Event.tError ("Failed to create " ++ rawName ++ " file.")])
  else
  if iBitSize ≠ 8 ∧ iBitSize ≠ 16 then
    (false, tr ++ [Event.tError "Invalid bitsize"])
  else
  let tr := tr ++ (GenerateVolumeData E.libm iBitSize bMandelbulb vSize).map Event.rawWrite
    ++ [Event.rawClose]
  if !bGenerateUVF E strUVFName then
    (toBool EXIT_SUCCESS, tr)
  else
  let tr := tr ++ [Event.setGlobalHeader "CS_MD5",
    Event.addDataBlock (Block.dataBlock "Test Block 1"),
    Event.addDataBlock (Block.dataBlock "Test Block 2")]
  if bUseToCBlock then
    let tr := tr ++ [Event.tocFlatDataToBrickedLOD rawName iBitSize vSize iBrickSize
      E.DEFAULT_BRICKOVERLAP]
    if !E.tocBrickOk then
      (false, tr ++ [Event.tError "Failed to subdivide the volume into bricks",
        Event.rawDelete, Event.uvfClose])
    else
      finishUVF E strUVFName iBitSize bKeepRaw (Block.tocBlock "Test TOC Volume 1") tr
  else
    let tr := tr ++ [Event.rawOpen, Event.rasterFlatDataToBrickedLOD iBitSize]
    if !E.rasterBrickOk then
      (false, tr ++ [Event.tError "Failed to subdivide the volume into bricks",
        Event.uvfClose, Event.rawDelete])
    else
    let tr := tr ++ [Event.verify]
    if !E.verifyOk then
      (false, tr ++ [Event.tError
        ("Verify failed with the following reason: " ++ E.strProblemDesc),
        Event.uvfClose, Event.rawDelete])
    else
      finishUVF E strUVFName iBitSize bKeepRaw
        (Block.rasterBlock (makeRasterBlock E vSize iBitSize iBrickSize)) tr

/-- The blocks appended to the container during a run. -/
def appendedBlocks : List Event → List Block
  | [] => []
  | Event.addDataBlock b :: tr => b :: appendedBlocks tr
  | _ :: tr => appendedBlocks tr

/-- Calls on the container `uvfFile`. -/
def Event.isContainerOp : Event → Bool
  | Event.setGlobalHeader _ => true
  | Event.addDataBlock _ => true
  | Event.uvfCreate => true
  | Event.uvfClose => true
  | _ => false

/-- Calls on the raw file `dummyData`, and error reports. -/
def Event.isRawOp : Event → Bool
  | Event.rawCreate _ _ => true
  | Event.rawWrite _ => true
  | Event.rawClose => true
  | Event.rawOpen => true
  | Event.rawDelete => true
  | _ => false

/-- The spec's wording: halve `m` by integer division `k` times. -/
def halveTimes (m : Nat) : Nat → Nat
  | 0 => m
  | k + 1 => halveTimes m k / 2

/-- The spec's characterisation of the level count `L` for largest dimension `m` and
brick size `B`: the least `L ≥ 1` with `m` halved `L - 1` times at most `B`. -/
def IsLeastLevelCount (m B L : Nat) : Prop :=
  1 ≤ L ∧ halveTimes m (L - 1) ≤ B ∧ ∀ L1, 1 ≤ L1 → halveTimes m (L1 - 1) ≤ B → L ≤ L1

/-! ## A concrete environment

Used to instantiate the general statements: file names are split at the last dot,
and the maths library is a crude rational stand-in. -/

/-- The text after the last dot, empty when there is none. -/
def sampleGetExt (s : String) : String :=
  if '.' ∈ s.data then String.mk (s.data.reverse.takeWhile (fun c => c != '.')).reverse else ""

/-- ASCII lower-casing. -/
def sampleToLowerCase (s : String) : String := String.mk (s.data.map Char.toLower)

/-- Replace the text after the last dot, or add a dot and the extension. -/
def sampleChangeExt (s ext : String) : String :=
  if '.' ∈ s.data then
    String.mk ((s.data.reverse.dropWhile (fun c => c != '.')).reverse ++ ext.data)
  else String.mk (s.data ++ '.' :: ext.data)

/-- A rational stand-in for `<cmath>`: square roots to 24 binary digits, integer powers. -/
def sampleLibm : Libm :=
  { sqrt := fun q => (Nat.sqrt (Int.toNat ⌊q * 2 ^ 48⌋) : ℚ) / 2 ^ 24,
    atan2 := fun _ _ => 0,
    sin := fun _ => 0,
    cos := fun _ => 1,
    pow := fun b e => b ^ Int.toNat ⌊e⌋ }

/-- An environment in which every collaborator call succeeds. -/
def sampleEnv : Env :=
  { GetExt := sampleGetExt, ToLowerCase := sampleToLowerCase, ChangeExt := sampleChangeExt,
    ToString := fun n => toString n, DEFAULT_BRICKOVERLAP := 2, IsLittleEndian := true,
    libm := sampleLibm, rawCreateOk := true, tocBrickOk := true, rasterBrickOk := true,
    verifyOk := true, strProblemDesc := "", addPayloadOk := true, histogram1DOk := true,
    histogram2DOk := true, uvfCreateOk := true }

/-! ## Theorems -/

/-! ### LOD level count -/

theorem halveTimes_eq (m k : Nat) : halveTimes m k = m / 2 ^ k := by
  induction k with
  | zero => simp [halveTimes]
  | succ k ih => rw [halveTimes, ih, Nat.div_div_eq_div_mul, pow_succ]

theorem lodLoop_spec (B : Nat) : ∀ m c : Nat,
    ∃ k, lodLoop m B c = c + k ∧ m / 2 ^ k ≤ B ∧ ∀ j, j < k → B < m / 2 ^ j := by
  intro m
  induction m using Nat.strong_induction_on with
  | _ m ih =>
    intro c
    rw [lodLoop]
    by_cases h : m > B
    · rw [if_pos h]
      obtain ⟨k, hk, hle, hmin⟩ := ih (m / 2) (by omega) (c + 1)
      refine ⟨k + 1, by omega, ?_, ?_⟩
      · rw [pow_succ, Nat.mul_comm, ← Nat.div_div_eq_div_mul]; exact hle
      · intro j hj
        cases j with
        | zero => simpa using h
        | succ j =>
          have := hmin j (by omega)
          rw [pow_succ, Nat.mul_comm, ← Nat.div_div_eq_div_mul]; exact this
    · rw [if_neg h]
      exact ⟨0, by simp, by simpa using h, by intro j hj; omega⟩

theorem lodLoop_least (m B : Nat) : IsLeastLevelCount m B (lodLoop m B 1) := by
  obtain ⟨k, hk, hle, hmin⟩ := lodLoop_spec B m 1
  rw [hk]
  refine ⟨by omega, ?_, ?_⟩
  · rw [halveTimes_eq]; simpa using hle
  · intro L1 h1 hL1
    rw [halveTimes_eq] at hL1
    by_contra hlt
    have := hmin (L1 - 1) (by omega)
    omega

theorem lodLoop_mono (B m1 m2 : Nat) (h : m1 ≤ m2) : lodLoop m1 B 1 ≤ lodLoop m2 B 1 := by
  obtain ⟨k1, hk1, _, hmin1⟩ := lodLoop_spec B m1 1
  obtain ⟨k2, hk2, hle2, _⟩ := lodLoop_spec B m2 1
  rw [hk1, hk2]
  by_contra hlt
  have h1 := hmin1 k2 (by omega)
  have h2 : m1 / 2 ^ k2 ≤ m2 / 2 ^ k2 := Nat.div_le_div_right h
  omega

theorem u32_of_lt (n : Nat) (h : n < 2 ^ 32) : u32 n = n := Nat.mod_eq_of_lt h

/-- C4 (as stated) fails: for the volume `(2^32, 1, 1)` and brick size 32 the stored
level count is 1, while the largest dimension, halved zero times, still exceeds the
brick size. -/
theorem lodLevelCount_truncated_counterexample :
    (0 < (4294967296 : Nat) ∧ UINT64VECTOR3.inRange ⟨4294967296, 1, 1⟩) ∧
    lodLevelCount ⟨4294967296, 1, 1⟩ 32 = 1 ∧
    ¬ IsLeastLevelCount (UINT64VECTOR3.maxVal ⟨4294967296, 1, 1⟩) 32
        (lodLevelCount ⟨4294967296, 1, 1⟩ 32) := by
  have hc : lodLevelCount ⟨4294967296, 1, 1⟩ 32 = 1 := by
    simp [lodLevelCount, u32, UINT64VECTOR3.maxVal, lodLoop]
  refine ⟨⟨by decide, by simp [UINT64VECTOR3.inRange]⟩, hc, ?_⟩
  rw [hc]
  rintro ⟨_, h, _⟩
  simp [halveTimes, UINT64VECTOR3.maxVal] at h

/-- C4 (amended): when the largest dimension fits in 32 bits, the level count stored
by the flat-raster path is the least `L ≥ 1` such that halving the largest dimension
`L - 1` times gives at most the brick size; for `(64,64,64)` and brick size 32 it is 2. -/
theorem lodLevelCount_least (vSize : UINT64VECTOR3) (iBrickSize : Nat)
    (h32 : vSize.maxVal < 2 ^ 32) :
    IsLeastLevelCount vSize.maxVal iBrickSize (lodLevelCount vSize iBrickSize) ∧
    lodLevelCount ⟨64, 64, 64⟩ 32 = 2 := by
  constructor
  · have := lodLoop_least vSize.maxVal iBrickSize
    rwa [lodLevelCount, u32_of_lt _ h32]
  · simp [lodLevelCount, u32, UINT64VECTOR3.maxVal, lodLoop]

theorem lodLevelCount_least_witness :
    UINT64VECTOR3.maxVal ⟨100, 40, 7⟩ < 2 ^ 32 ∧
    IsLeastLevelCount (UINT64VECTOR3.maxVal ⟨100, 40, 7⟩) 32 (lodLevelCount ⟨100, 40, 7⟩ 32) :=
  ⟨by decide, (lodLevelCount_least ⟨100, 40, 7⟩ 32 (by decide)).1⟩

/-- C5 (as stated) fails: `(2^32 - 1, 1, 1)` has the smaller largest dimension and
28 levels, `(2^32, 1, 1)` has 1 level, for brick size 32. -/
theorem lodLevelCount_mono_counterexample :
    UINT64VECTOR3.maxVal ⟨4294967295, 1, 1⟩ ≤ UINT64VECTOR3.maxVal ⟨4294967296, 1, 1⟩ ∧
    UINT64VECTOR3.inRange ⟨4294967296, 1, 1⟩ ∧
    lodLevelCount ⟨4294967295, 1, 1⟩ 32 = 28 ∧ lodLevelCount ⟨4294967296, 1, 1⟩ 32 = 1 ∧
    ¬ lodLevelCount ⟨4294967295, 1, 1⟩ 32 ≤ lodLevelCount ⟨4294967296, 1, 1⟩ 32 := by
  have h1 : lodLevelCount ⟨4294967295, 1, 1⟩ 32 = 28 := by
    simp [lodLevelCount, u32, UINT64VECTOR3.maxVal, lodLoop]
  have h2 : lodLevelCount ⟨4294967296, 1, 1⟩ 32 = 1 := by
    simp [lodLevelCount, u32, UINT64VECTOR3.maxVal, lodLoop]
  refine ⟨by simp [UINT64VECTOR3.maxVal], by simp [UINT64VECTOR3.inRange], h1, h2, ?_⟩
  rw [h1, h2]; decide

/-- C5 (amended): for volumes whose largest dimension fits in 32 bits the level count
is non-decreasing in the largest dimension for a fixed brick size; and for every volume
the count is 1 whenever the largest dimension is at most the brick size. -/
theorem lodLevelCount_mono (d1 d2 : UINT64VECTOR3) (iBrickSize : Nat)
    (h12 : d1.maxVal ≤ d2.maxVal) (h32 : d2.maxVal < 2 ^ 32) :
    lodLevelCount d1 iBrickSize ≤ lodLevelCount d2 iBrickSize ∧
    (d1.maxVal ≤ iBrickSize → lodLevelCount d1 iBrickSize = 1) := by
  constructor
  · rw [lodLevelCount, lodLevelCount, u32_of_lt _ h32, u32_of_lt _ (lt_of_le_of_lt h12 h32)]
    exact lodLoop_mono iBrickSize _ _ h12
  · intro hB
    have hle : u32 d1.maxVal ≤ iBrickSize := le_trans (Nat.mod_le _ _) hB
    rw [lodLevelCount, lodLoop, if_neg (by omega)]

theorem lodLevelCount_mono_witness :
    (UINT64VECTOR3.maxVal ⟨20, 30, 10⟩ ≤ UINT64VECTOR3.maxVal ⟨100, 40, 7⟩ ∧
      UINT64VECTOR3.maxVal ⟨100, 40, 7⟩ < 2 ^ 32 ∧ UINT64VECTOR3.maxVal ⟨20, 30, 10⟩ ≤ 32) ∧
    lodLevelCount ⟨20, 30, 10⟩ 32 ≤ lodLevelCount ⟨100, 40, 7⟩ 32 ∧
    lodLevelCount ⟨20, 30, 10⟩ 32 = 1 :=
  ⟨⟨by decide, by decide, by decide⟩,
    (lodLevelCount_mono ⟨20, 30, 10⟩ ⟨100, 40, 7⟩ 32 (by decide) (by decide)).1,
    (lodLevelCount_mono ⟨20, 30, 10⟩ ⟨100, 40, 7⟩ 32 (by decide) (by decide)).2 (by decide)⟩

/-! ### Remaining-time estimate -/

/-- C10: past the midpoint with `miliSecsHalfWay = 10` and `miliSecs = 30` the logged
remaining time is `2^64 - 10` milliseconds, not the `max(0, 2*10 - 30) = 0` of the
claim: the unsigned subtraction wraps before `std::max` is applied. -/
theorem remainingTime_wraps :
    progressStep 10 6 30 10 = (Progress.remainingTime 18446744073709551606, 10) ∧
    max (0 : Int) (2 * 10 - 30) = 0 := by
  constructor
  · simp [progressStep, remainingMiliSecs, u64sub, u64]
  · decide

/-! ### Raw store size -/

theorem finishUVF_head (E : Env) (strUVFName : String) (iBitSize : Nat) (bKeepRaw : Bool)
    (payload : Block) (e : Event) (tr : List Event) :
    (finishUVF E strUVFName iBitSize bKeepRaw payload (e :: tr)).2.head? = some e := by
  unfold finishUVF
  cases bKeepRaw <;> cases E.addPayloadOk <;> cases E.histogram1DOk <;>
    cases E.histogram2DOk <;> cases E.uvfCreateOk <;> simp

/-- The first collaborator call of every run creates the raw store with
`rawStoreSize` bytes. -/
theorem CreateUVFFile_head (E : Env) (strUVFName : String) (vSize : UINT64VECTOR3)
    (iBitSize : Nat) (bMandelbulb : Bool) (iBrickSize : Nat) (bUseToCBlock bKeepRaw : Bool) :
    (CreateUVFFile E strUVFName vSize iBitSize bMandelbulb iBrickSize bUseToCBlock
      bKeepRaw).2.head?
      = some (Event.rawCreate (rawFilename E strUVFName) (rawStoreSize vSize iBitSize)) := by
  unfold CreateUVFFile
  simp only [List.singleton_append, List.cons_append]
  split_ifs <;> first | rfl | exact finishUVF_head _ _ _ _ _ _ _

theorem sum_bytes_rows (f : Nat → Nat → RowWrite) (c : Nat) (hf : ∀ z y, (f z y).bytes = c)
    (zs ys : List Nat) :
    totalBytes (zs.flatMap (fun z => ys.map (fun y => f z y))) = zs.length * (ys.length * c) := by
  unfold totalBytes
  have hrow : ∀ z, ((ys.map (fun y => f z y)).map RowWrite.bytes).sum = ys.length * c := by
    intro z
    induction ys with
    | nil => simp
    | cons y ys ihy =>
      simp only [List.map_cons, List.sum_cons, List.length_cons, hf, ihy]
      ring
  induction zs with
  | nil => simp
  | cons z zs ih =>
    simp only [List.flatMap_cons, List.map_append, List.sum_append, hrow z, ih, List.length_cons]
    ring

theorem totalBytes_GenerateVolumeData (L : Libm) (bits : Nat) (bM : Bool) (vSize : UINT64VECTOR3) :
    totalBytes (GenerateVolumeData L bits bM vSize)
      = vSize.z * (vSize.y * u64 (vSize.x * sizeofT bits)) := by
  unfold GenerateVolumeData
  rw [sum_bytes_rows (fun z y => generateRow L bits bM vSize z y) (u64 (vSize.x * sizeofT bits))
    (fun _ _ => rfl)]
  simp

/-- C3 (as stated) fails: for the volume `(1, 2^31, 2^30)` with 8 bit samples the
rows written add up to `2^61` bytes, but the size passed to `Create` is 0, because
`vSize.volume()*iBitSize` wraps around in `uint64_t` before the division by 8. -/
theorem rawStoreSize_wraps_counterexample :
    UINT64VECTOR3.inRange ⟨1, 2147483648, 1073741824⟩ ∧
    totalBytes (GenerateVolumeData sampleLibm 8 false ⟨1, 2147483648, 1073741824⟩)
      = 1 * 2147483648 * 1073741824 * (8 / 8) ∧
    (CreateUVFFile sampleEnv "volume.uvf" ⟨1, 2147483648, 1073741824⟩ 8 false 32 false
      false).2.head? = some (Event.rawCreate "volume.raw" 0) ∧
    rawStoreSize ⟨1, 2147483648, 1073741824⟩ 8 ≠ 1 * 2147483648 * 1073741824 * (8 / 8) := by
  have hsize : rawStoreSize ⟨1, 2147483648, 1073741824⟩ 8 = 0 := by
    simp [rawStoreSize, UINT64VECTOR3.volume, u64]
  have hname : rawFilename sampleEnv "volume.uvf" = "volume.raw" := by decide
  refine ⟨by simp [UINT64VECTOR3.inRange], ?_, ?_, ?_⟩
  · rw [totalBytes_GenerateVolumeData]; simp [u64, sizeofT]
  · rw [CreateUVFFile_head, hsize, hname]
  · rw [hsize]; decide

/-- C3 (amended): for every volume size and bit width 8 or 16 with
`x*y*z*bitWidth < 2^64`, the bytes `GenerateVolumeData` hands to `WriteRAW` (one row of
`x*sizeof(T)` bytes per `(y, z)`, `z` outermost) add up to `x*y*z*(bitWidth/8)`, and the
first call of `CreateUVFFile` creates the raw store with exactly that size. -/
theorem rawBytes_eq (E : Env) (strUVFName : String) (bMandelbulb : Bool) (iBrickSize : Nat)
    (bUseToCBlock bKeepRaw : Bool) (vSize : UINT64VECTOR3) (iBitSize : Nat)
    (hb : iBitSize = 8 ∨ iBitSize = 16)
    (hfit : vSize.x * vSize.y * vSize.z * iBitSize < 2 ^ 64) :
    totalBytes (GenerateVolumeData E.libm iBitSize bMandelbulb vSize)
      = vSize.x * vSize.y * vSize.z * (iBitSize / 8) ∧
    (CreateUVFFile E strUVFName vSize iBitSize bMandelbulb iBrickSize bUseToCBlock
      bKeepRaw).2.head?
      = some (Event.rawCreate (rawFilename E strUVFName)
          (vSize.x * vSize.y * vSize.z * (iBitSize / 8))) := by
  rw [CreateUVFFile_head]
  suffices h : totalBytes (GenerateVolumeData E.libm iBitSize bMandelbulb vSize)
      = vSize.x * vSize.y * vSize.z * (iBitSize / 8) ∧
      rawStoreSize vSize iBitSize = vSize.x * vSize.y * vSize.z * (iBitSize / 8) by
    rw [h.2]; exact ⟨h.1, rfl⟩
  have hpos : 0 < iBitSize := by omega
  by_cases hz : vSize.z = 0
  · simp [totalBytes_GenerateVolumeData, rawStoreSize, UINT64VECTOR3.volume, u64, hz]
  by_cases hy : vSize.y = 0
  · simp [totalBytes_GenerateVolumeData, rawStoreSize, UINT64VECTOR3.volume, u64, hy]
  have hxyz : vSize.x * vSize.y * vSize.z < 2 ^ 64 :=
    lt_of_le_of_lt (Nat.le_mul_of_pos_right _ hpos) hfit
  have hxy : vSize.x * vSize.y < 2 ^ 64 :=
    lt_of_le_of_lt (Nat.le_mul_of_pos_right _ (Nat.pos_of_ne_zero hz)) hxyz
  have hx : vSize.x < 2 ^ 64 :=
    lt_of_le_of_lt (Nat.le_mul_of_pos_right _ (Nat.pos_of_ne_zero hy)) hxy
  have hs : vSize.x * sizeofT iBitSize < 2 ^ 64 := by
    have : sizeofT iBitSize ≤ 2 := by unfold sizeofT; omega
    have h2 : vSize.x * sizeofT iBitSize ≤ vSize.x * 2 := Nat.mul_le_mul_left _ this
    have h8 : vSize.x * 8 ≤ vSize.x * vSize.y * vSize.z * iBitSize := by
      have h1 : vSize.x ≤ vSize.x * vSize.y * vSize.z := by
        calc vSize.x ≤ vSize.x * vSize.y := Nat.le_mul_of_pos_right _ (Nat.pos_of_ne_zero hy)
          _ ≤ vSize.x * vSize.y * vSize.z := Nat.le_mul_of_pos_right _ (Nat.pos_of_ne_zero hz)
      exact Nat.mul_le_mul h1 (by omega)
    omega
  constructor
  · rw [totalBytes_GenerateVolumeData, u64, Nat.mod_eq_of_lt hs, sizeofT]; ring
  · rw [rawStoreSize, UINT64VECTOR3.volume, u64, u64, u64, Nat.mod_eq_of_lt hxy,
      Nat.mod_eq_of_lt hxyz, Nat.mod_eq_of_lt hfit]
    rcases hb with rfl | rfl
    · simp
    · rw [show (16 : Nat) = 2 * 8 by rfl, ← Nat.mul_assoc, Nat.mul_div_cancel _ (by decide)]

theorem rawBytes_eq_witness :
    (64 : Nat) * 64 * 64 * 8 < 2 ^ 64 ∧
    totalBytes (GenerateVolumeData sampleEnv.libm 8 false ⟨64, 64, 64⟩) = 262144 ∧
    (CreateUVFFile sampleEnv "volume.uvf" ⟨64, 64, 64⟩ 8 false 32 false false).2.head?
      = some (Event.rawCreate (rawFilename sampleEnv "volume.uvf") 262144) :=
  ⟨by decide, rawBytes_eq sampleEnv "volume.uvf" false 32 false false ⟨64, 64, 64⟩ 8
    (Or.inl rfl) (by decide)⟩

/-! ### Mandelbulb -/

theorem mandelLoop_spec (L : Libm) (sx sy sz : ℚ) (n iMax : Nat) (fBailout : ℚ) :
    ∀ k i : Nat, i + k = iMax →
      (∀ j, j < i → ¬ fBailout < (mandelIterate L sx sy sz n (j + 1)).r) →
      (∃ e, e < iMax ∧ fBailout < (mandelIterate L sx sy sz n (e + 1)).r ∧
          (∀ j, j < e → ¬ fBailout < (mandelIterate L sx sy sz n (j + 1)).r) ∧
          mandelLoop L sx sy sz n iMax fBailout k i (mandelIterate L sx sy sz n i)
            = (e : ℚ) / (iMax : ℚ)) ∨
      ((∀ j, j < iMax → ¬ fBailout < (mandelIterate L sx sy sz n (j + 1)).r) ∧
          mandelLoop L sx sy sz n iMax fBailout k i (mandelIterate L sx sy sz n i) = 1) := by
  intro k
  induction k with
  | zero =>
    intro i hi hno
    right
    refine ⟨fun j hj => hno j (by omega), rfl⟩
  | succ k ih =>
    intro i hi hno
    rw [mandelLoop]
    by_cases hesc : fBailout < (mandelIterate L sx sy sz n (i + 1)).r
    · left
      refine ⟨i, by omega, hesc, hno, ?_⟩
      have : (mandelStep L sx sy sz n (mandelIterate L sx sy sz n i)).r > fBailout := hesc
      simp only [this, if_true]
    · have hstep : ¬ (mandelStep L sx sy sz n (mandelIterate L sx sy sz n i)).r > fBailout := hesc
      simp only [hstep, if_false]
      have hno1 : ∀ j, j < i + 1 → ¬ fBailout < (mandelIterate L sx sy sz n (j + 1)).r := by
        intro j hj
        rcases Nat.lt_succ_iff_lt_or_eq.mp hj with h | h
        · exact hno j h
        · rw [h]; exact hesc
      exact ih (i + 1) (by omega) hno1

/-- C7: for every input, `ComputeMandelbulb` returns a value in `[0,1]`; it is
`i / iMaxIterations` (below 1) for the first iteration index `i < iMaxIterations` whose
new radius exceeds `fBailout`, and exactly 1 when no iteration escapes, in particular
when `iMaxIterations = 0`. -/
theorem ComputeMandelbulb_unit_interval (L : Libm) (sx sy sz : ℚ) (n iMaxIterations : Nat)
    (fBailout : ℚ) :
    (0 ≤ ComputeMandelbulb L sx sy sz n iMaxIterations fBailout ∧
      ComputeMandelbulb L sx sy sz n iMaxIterations fBailout ≤ 1) ∧
    ((∃ i, i < iMaxIterations ∧ fBailout < (mandelIterate L sx sy sz n (i + 1)).r ∧
        (∀ j, j < i → ¬ fBailout < (mandelIterate L sx sy sz n (j + 1)).r) ∧
        ComputeMandelbulb L sx sy sz n iMaxIterations fBailout = (i : ℚ) / (iMaxIterations : ℚ) ∧
        ComputeMandelbulb L sx sy sz n iMaxIterations fBailout < 1) ∨
     ((∀ j, j < iMaxIterations → ¬ fBailout < (mandelIterate L sx sy sz n (j + 1)).r) ∧
        ComputeMandelbulb L sx sy sz n iMaxIterations fBailout = 1)) ∧
    ComputeMandelbulb L sx sy sz n 0 fBailout = 1 := by
  have h := mandelLoop_spec L sx sy sz n iMaxIterations fBailout iMaxIterations 0 (by omega)
    (fun j hj => absurd hj (Nat.not_lt_zero j))
  have hfrac : ∀ e : Nat, e < iMaxIterations →
      0 ≤ (e : ℚ) / (iMaxIterations : ℚ) ∧ (e : ℚ) / (iMaxIterations : ℚ) < 1 := by
    intro e he
    have hpos : (0 : ℚ) < (iMaxIterations : ℚ) := by exact_mod_cast (by omega : 0 < iMaxIterations)
    refine ⟨div_nonneg (by exact_mod_cast Nat.zero_le e) hpos.le, ?_⟩
    rw [div_lt_one hpos]
    exact_mod_cast he
  refine ⟨?_, ?_, rfl⟩
  · rcases h with ⟨e, he, _, _, hv⟩ | ⟨_, hv⟩
    · rw [ComputeMandelbulb, mandelIterate] at *
      rw [hv]; exact ⟨(hfrac e he).1, (hfrac e he).2.le⟩
    · rw [ComputeMandelbulb, mandelIterate] at *
      rw [hv]; exact ⟨by norm_num, le_refl _⟩
  · rcases h with ⟨e, he, hesc, hno, hv⟩ | ⟨hno, hv⟩
    · left
      refine ⟨e, he, hesc, hno, hv, ?_⟩
      rw [ComputeMandelbulb]; rw [mandelIterate] at hv; rw [hv]; exact (hfrac e he).2
    · right; exact ⟨hno, hv⟩

theorem mandelStep_origin (L : Libm) (hsqrt : L.sqrt 0 = 0) (hpow : L.pow 0 8 = 0) :
    mandelStep L 0 0 0 8 { fx := 0, fy := 0, fz := 0, r := 0 }
      = { fx := 0, fy := 0, fz := 0, r := 0 } := by
  simp [mandelStep, PowerX, PowerY, PowerZ, radius, hpow, hsqrt]

theorem mandelIterate_origin (L : Libm) (hsqrt : L.sqrt 0 = 0) (hpow : L.pow 0 8 = 0) (k : Nat) :
    mandelIterate L 0 0 0 8 k = { fx := 0, fy := 0, fz := 0, r := 0 } := by
  induction k with
  | zero => simp [mandelIterate, mandelInit, radius, hsqrt]
  | succ k ih => rw [mandelIterate, ih, mandelStep_origin L hsqrt hpow]

theorem mandelLoop_origin (L : Libm) (hsqrt : L.sqrt 0 = 0) (hpow : L.pow 0 8 = 0) (iMax : Nat) :
    ∀ k i : Nat, mandelLoop L 0 0 0 8 iMax 4 k i { fx := 0, fy := 0, fz := 0, r := 0 } = 1 := by
  intro k
  induction k with
  | zero => intro i; rfl
  | succ k ih =>
    intro i
    rw [mandelLoop]
    simp only [mandelStep_origin L hsqrt hpow]
    rw [if_neg (by norm_num)]
    exact ih (i + 1)

/-- C8: at the origin, with power 8 and bailout 4 (and a maths library with
`sqrt(0) = 0`, `pow(0, 8) = 0`), the iterate is `(0,0,0)` with radius 0 after every
number of updates, so the radius never exceeds the bailout, and `ComputeMandelbulb`
returns 1 for every `iMaxIterations`. -/
theorem ComputeMandelbulb_origin (L : Libm) (hsqrt : L.sqrt 0 = 0) (hpow : L.pow 0 8 = 0)
    (iMaxIterations : Nat) :
    (∀ k, mandelIterate L 0 0 0 8 k = { fx := 0, fy := 0, fz := 0, r := 0 } ∧
      ¬ (4 : ℚ) < (mandelIterate L 0 0 0 8 k).r) ∧
    ComputeMandelbulb L 0 0 0 8 iMaxIterations 4 = 1 := by
  constructor
  · intro k
    rw [mandelIterate_origin L hsqrt hpow k]
    exact ⟨rfl, by norm_num⟩
  · have h0 : mandelInit L = { fx := 0, fy := 0, fz := 0, r := 0 } := by
      simp [mandelInit, radius, hsqrt]
    rw [ComputeMandelbulb, h0]
    exact mandelLoop_origin L hsqrt hpow iMaxIterations iMaxIterations 0

theorem sampleLibm_sqrt_zero : sampleLibm.sqrt 0 = 0 := by simp [sampleLibm]

theorem sampleLibm_pow_zero : sampleLibm.pow 0 8 = 0 := by
  simp [sampleLibm]

theorem ComputeMandelbulb_origin_witness :
    (sampleLibm.sqrt 0 = 0 ∧ sampleLibm.pow 0 8 = 0) ∧
    ComputeMandelbulb sampleLibm 0 0 0 8 255 4 = 1 :=
  ⟨⟨sampleLibm_sqrt_zero, sampleLibm_pow_zero⟩,
    (ComputeMandelbulb_origin sampleLibm sampleLibm_sqrt_zero sampleLibm_pow_zero 255).2⟩

/-! ### Radial falloff -/

theorem castT_le_numericMax (bits : Nat) (v : ℚ) : castT bits v ≤ numericMax bits := by
  have h : castT bits v < 2 ^ bits := Nat.mod_lt _ (by positivity)
  unfold numericMax
  omega

theorem castT_numericMax (bits : Nat) : castT bits (numericMax bits : ℚ) = numericMax bits := by
  unfold castT
  rw [Int.floor_natCast, Int.toNat_ofNat]
  apply Nat.mod_eq_of_lt
  have : 0 < 2 ^ bits := by positivity
  unfold numericMax
  omega

theorem half_cast (n : Nat) (hpos : 0 < n) (heven : n % 2 = 0) :
    ((n / 2 : Nat) : ℚ) / (n : ℚ) = 1 / 2 := by
  have hd : 2 ∣ n := Nat.dvd_of_mod_eq_zero heven
  have hn : (n : ℚ) ≠ 0 := by exact_mod_cast hpos.ne'
  rw [Nat.cast_div hd (by norm_num)]
  field_simp
  ring

/-- C9: for a volume with even, positive dimensions and either sample width (and a
maths library with `sqrt(0) = 0`), the radial-falloff sample at the centre voxel
`(X/2, Y/2, Z/2)` is the maximum of the sample type, 255 or 65535, and the sample at
each of the eight corners (every index 0 or dimension - 1) is at most the centre's. -/
theorem radialFalloff_centre_max (L : Libm) (hsqrt : L.sqrt 0 = 0) (bits : Nat)
    (hbits : bits = 8 ∨ bits = 16) (vSize : UINT64VECTOR3)
    (hx : 0 < vSize.x ∧ vSize.x % 2 = 0) (hy : 0 < vSize.y ∧ vSize.y % 2 = 0)
    (hz : 0 < vSize.z ∧ vSize.z % 2 = 0) :
    sample L bits false vSize (vSize.x / 2) (vSize.y / 2) (vSize.z / 2) = numericMax bits ∧
    (numericMax bits = 255 ∨ numericMax bits = 65535) ∧
    ∀ cx cy cz, (cx = 0 ∨ cx = vSize.x - 1) → (cy = 0 ∨ cy = vSize.y - 1) →
      (cz = 0 ∨ cz = vSize.z - 1) →
      sample L bits false vSize cx cy cz
        ≤ sample L bits false vSize (vSize.x / 2) (vSize.y / 2) (vSize.z / 2) := by
  have hc : sample L bits false vSize (vSize.x / 2) (vSize.y / 2) (vSize.z / 2)
      = numericMax bits := by
    simp only [sample, radialSample, Bool.false_eq_true, if_false,
      half_cast _ hx.1 hx.2, half_cast _ hy.1 hy.2, half_cast _ hz.1 hz.2]
    have hval : max (0 : ℚ) ((1 / 2 - L.sqrt ((1 / 2 - 1 / 2) * (1 / 2 - 1 / 2)
        + (1 / 2 - 1 / 2) * (1 / 2 - 1 / 2) + (1 / 2 - 1 / 2) * (1 / 2 - 1 / 2)))
        * (numericMax bits : ℚ) * 2) = (numericMax bits : ℚ) := by
      have h0 : ((1 / 2 - 1 / 2 : ℚ)) * (1 / 2 - 1 / 2) + (1 / 2 - 1 / 2) * (1 / 2 - 1 / 2)
          + (1 / 2 - 1 / 2) * (1 / 2 - 1 / 2) = 0 := by norm_num
      rw [h0, hsqrt]
      have hnn : (0 : ℚ) ≤ (numericMax bits : ℚ) := by exact_mod_cast Nat.zero_le _
      rw [max_eq_right (by linarith)]
      ring
    rw [hval, castT_numericMax]
  refine ⟨hc, ?_, ?_⟩
  · rcases hbits with rfl | rfl
    · left; decide
    · right; decide
  · intro cx cy cz _ _ _
    rw [hc]
    simp only [sample, Bool.false_eq_true, if_false, radialSample]
    exact castT_le_numericMax _ _

theorem radialFalloff_centre_max_witness :
    sampleLibm.sqrt 0 = 0 ∧
    sample sampleLibm 8 false ⟨4, 4, 4⟩ 2 2 2 = 255 ∧
    sample sampleLibm 8 false ⟨4, 4, 4⟩ 0 3 0 ≤ 255 := by
  have h := radialFalloff_centre_max sampleLibm sampleLibm_sqrt_zero 8 (Or.inl rfl) ⟨4, 4, 4⟩
    ⟨by decide, by decide⟩ ⟨by decide, by decide⟩ ⟨by decide, by decide⟩
  refine ⟨sampleLibm_sqrt_zero, h.1, ?_⟩
  have h3 := h.2.2 0 3 0 (Or.inl rfl) (Or.inr rfl) (Or.inl rfl)
  rw [h.1] at h3
  exact h3

/-! ### Container assembly -/

theorem appendedBlocks_append (a b : List Event) :
    appendedBlocks (a ++ b) = appendedBlocks a ++ appendedBlocks b := by
  induction a with
  | nil => rfl
  | cons e a ih => cases e <;> simp [appendedBlocks, ih]

theorem appendedBlocks_rawWrite (ws : List RowWrite) :
    appendedBlocks (ws.map Event.rawWrite) = [] := by
  induction ws with
  | nil => rfl
  | cons w ws ih => simp [appendedBlocks, ih]

theorem all_isRawOp_rawWrite (ws : List RowWrite) :
    (ws.map Event.rawWrite).all Event.isRawOp = true := by
  induction ws with
  | nil => rfl
  | cons w ws ih => simp [Event.isRawOp]

theorem any_isContainerOp_rawWrite (ws : List RowWrite) :
    (ws.map Event.rawWrite).any Event.isContainerOp = false := by
  induction ws with
  | nil => rfl
  | cons w ws ih => simp [Event.isContainerOp]

/-- The run on a path that is not a container path, with a valid bit width and a raw
store that could be created: the calls made and the value returned. -/
theorem CreateUVFFile_raw_target (E : Env) (strUVFName : String) (vSize : UINT64VECTOR3)
    (iBitSize : Nat) (bMandelbulb : Bool) (iBrickSize : Nat) (bUseToCBlock bKeepRaw : Bool)
    (hext : bGenerateUVF E strUVFName = false) (hbits : iBitSize = 8 ∨ iBitSize = 16)
    (hraw : E.rawCreateOk = true) :
    CreateUVFFile E strUVFName vSize iBitSize bMandelbulb iBrickSize bUseToCBlock bKeepRaw
      = (toBool EXIT_SUCCESS,
          [Event.rawCreate strUVFName (rawStoreSize vSize iBitSize)]
            ++ (GenerateVolumeData E.libm iBitSize bMandelbulb vSize).map Event.rawWrite
            ++ [Event.rawClose]) := by
  have hb : ¬ (iBitSize ≠ 8 ∧ iBitSize ≠ 16) := by omega
  simp [CreateUVFFile, rawFilename, hext, hraw, hb]

/-- C1: on `volume.raw` with size `(2,2,2)` and 8 bit samples, every collaborator
succeeding, the run touches only the raw file (no call on the container) but its
result is `false`: line 195 returns `EXIT_SUCCESS`, which is 0, from a function
returning `bool`. -/
theorem CreateUVFFile_raw_target_returns_false :
    bGenerateUVF sampleEnv "volume.raw" = false ∧
    (CreateUVFFile sampleEnv "volume.raw" ⟨2, 2, 2⟩ 8 false 32 false false).1 = false ∧
    (CreateUVFFile sampleEnv "volume.raw" ⟨2, 2, 2⟩ 8 false 32 false false).2.any
      Event.isContainerOp = false ∧
    (CreateUVFFile sampleEnv "volume.raw" ⟨2, 2, 2⟩ 8 false 32 false false).2.all
      Event.isRawOp = true := by
  have hext : bGenerateUVF sampleEnv "volume.raw" = false := by decide
  rw [CreateUVFFile_raw_target sampleEnv "volume.raw" ⟨2, 2, 2⟩ 8 false 32 false false hext
    (Or.inl rfl) rfl]
  refine ⟨hext, by decide, ?_, ?_⟩
  · simp only [List.any_append, any_isContainerOp_rawWrite]
    simp [Event.isContainerOp]
  · simp only [List.all_append, all_isRawOp_rawWrite]
    simp [Event.isRawOp]

/-- The bricked path up to the point where `FlatDataToBrickedLOD` has failed. -/
theorem CreateUVFFile_toc_failure_trace (E : Env) (strUVFName : String) (vSize : UINT64VECTOR3)
    (iBitSize : Nat) (bMandelbulb : Bool) (iBrickSize : Nat) (bKeepRaw : Bool)
    (hext : bGenerateUVF E strUVFName = true) (hbits : iBitSize = 8 ∨ iBitSize = 16)
    (hraw : E.rawCreateOk = true) (hfail : E.tocBrickOk = false) :
    CreateUVFFile E strUVFName vSize iBitSize bMandelbulb iBrickSize true bKeepRaw
      = (false,
          [Event.rawCreate (rawFilename E strUVFName) (rawStoreSize vSize iBitSize)]
            ++ (GenerateVolumeData E.libm iBitSize bMandelbulb vSize).map Event.rawWrite
            ++ [Event.rawClose]
            ++ [Event.setGlobalHeader "CS_MD5",
                Event.addDataBlock (Block.dataBlock "Test Block 1"),
                Event.addDataBlock (Block.dataBlock "Test Block 2")]
            ++ [Event.tocFlatDataToBrickedLOD (rawFilename E strUVFName) iBitSize vSize
                  iBrickSize E.DEFAULT_BRICKOVERLAP]
            ++ [Event.tError "Failed to subdivide the volume into bricks",
                Event.rawDelete, Event.uvfClose]) := by
  have hb : ¬ (iBitSize ≠ 8 ∧ iBitSize ≠ 16) := by omega
  simp [CreateUVFFile, hext, hraw, hb, hfail]

/-- C6: in the bricked path (container extension, bit width 8 or 16, raw store
created, `bUseToCBlock` set), when `FlatDataToBrickedLOD` reports failure the function
returns `false` for every `bKeepRaw`, having deleted the raw store and then closed the
container as its last call, and the only blocks appended are the two placeholders. -/
theorem CreateUVFFile_toc_bricking_failure (E : Env) (strUVFName : String)
    (vSize : UINT64VECTOR3) (iBitSize : Nat) (bMandelbulb : Bool) (iBrickSize : Nat)
    (bKeepRaw : Bool)
    (hext : bGenerateUVF E strUVFName = true) (hbits : iBitSize = 8 ∨ iBitSize = 16)
    (hraw : E.rawCreateOk = true) (hfail : E.tocBrickOk = false) :
    (CreateUVFFile E strUVFName vSize iBitSize bMandelbulb iBrickSize true bKeepRaw).1 = false ∧
    Event.rawDelete ∈
      (CreateUVFFile E strUVFName vSize iBitSize bMandelbulb iBrickSize true bKeepRaw).2 ∧
    (CreateUVFFile E strUVFName vSize iBitSize bMandelbulb iBrickSize true bKeepRaw).2.getLast?
      = some Event.uvfClose ∧
    appendedBlocks
      (CreateUVFFile E strUVFName vSize iBitSize bMandelbulb iBrickSize true bKeepRaw).2
      = [Block.dataBlock "Test Block 1", Block.dataBlock "Test Block 2"] := by
  rw [CreateUVFFile_toc_failure_trace E strUVFName vSize iBitSize bMandelbulb iBrickSize bKeepRaw
    hext hbits hraw hfail]
  refine ⟨rfl, ?_, ?_, ?_⟩
  · simp
  · rw [List.getLast?_append]; rfl
  · simp only [appendedBlocks_append, appendedBlocks_rawWrite]
    simp [appendedBlocks]

theorem CreateUVFFile_toc_bricking_failure_witness :
    (bGenerateUVF { sampleEnv with tocBrickOk := false } "volume.uvf" = true ∧
      ({ sampleEnv with tocBrickOk := false } : Env).rawCreateOk = true ∧
      ({ sampleEnv with tocBrickOk := false } : Env).tocBrickOk = false) ∧
    (CreateUVFFile { sampleEnv with tocBrickOk := false } "volume.uvf" ⟨16, 16, 16⟩ 16 true 32
      true true).1 = false ∧
    Event.rawDelete ∈ (CreateUVFFile { sampleEnv with tocBrickOk := false } "volume.uvf"
      ⟨16, 16, 16⟩ 16 true 32 true true).2 :=
  ⟨⟨by decide, rfl, rfl⟩,
    (CreateUVFFile_toc_bricking_failure { sampleEnv with tocBrickOk := false } "volume.uvf"
      ⟨16, 16, 16⟩ 16 true 32 true (by decide) (Or.inr rfl) rfl rfl).1,
    (CreateUVFFile_toc_bricking_failure { sampleEnv with tocBrickOk := false } "volume.uvf"
      ⟨16, 16, 16⟩ 16 true 32 true (by decide) (Or.inr rfl) rfl rfl).2.1⟩

theorem finishUVF_cleanup (E : Env) (strUVFName : String) (iBitSize : Nat) (bKeepRaw : Bool)
    (payload : Block) (tr : List Event) (hser : E.uvfCreateOk = true)
    (hres : (finishUVF E strUVFName iBitSize bKeepRaw payload tr).1 = false) :
    Event.uvfClose ∈ (finishUVF E strUVFName iBitSize bKeepRaw payload tr).2 ∧
    (bKeepRaw = false →
      Event.rawDelete ∈ (finishUVF E strUVFName iBitSize bKeepRaw payload tr).2) := by
  unfold finishUVF at hres ⊢
  cases bKeepRaw <;> cases h1 : E.addPayloadOk <;> cases h2 : E.histogram1DOk <;>
    cases h3 : E.histogram2DOk <;> simp_all

/-- Every fatal path other than the invalid bit width and the failed final
serialisation closes the container and, unless `bKeepRaw`, deletes the raw file. -/
theorem CreateUVFFile_failure_cleanup (E : Env) (strUVFName : String) (vSize : UINT64VECTOR3)
    (iBitSize : Nat) (bMandelbulb : Bool) (iBrickSize : Nat) (bUseToCBlock bKeepRaw : Bool)
    (hext : bGenerateUVF E strUVFName = true) (hbits : iBitSize = 8 ∨ iBitSize = 16)
    (hraw : E.rawCreateOk = true) (hser : E.uvfCreateOk = true)
    (hres : (CreateUVFFile E strUVFName vSize iBitSize bMandelbulb iBrickSize bUseToCBlock
      bKeepRaw).1 = false) :
    Event.uvfClose ∈ (CreateUVFFile E strUVFName vSize iBitSize bMandelbulb iBrickSize
      bUseToCBlock bKeepRaw).2 ∧
    (bKeepRaw = false → Event.rawDelete ∈ (CreateUVFFile E strUVFName vSize iBitSize
      bMandelbulb iBrickSize bUseToCBlock bKeepRaw).2) := by
  have hb : ¬ (iBitSize ≠ 8 ∧ iBitSize ≠ 16) := by omega
  unfold CreateUVFFile at hres ⊢
  simp only [hext, hraw, hb, Bool.not_true, Bool.false_eq_true, if_false] at hres ⊢
  cases bUseToCBlock
  · cases h1 : E.rasterBrickOk
    · simp
    · cases h2 : E.verifyOk
      · simp [h1]
      · simp only [h1, h2, Bool.not_true, Bool.false_eq_true, if_false] at hres ⊢
        exact finishUVF_cleanup E strUVFName iBitSize bKeepRaw _ _ hser hres
  · cases h1 : E.tocBrickOk
    · simp
    · simp only [h1, Bool.not_true, Bool.false_eq_true, if_false, if_true] at hres ⊢
      exact finishUVF_cleanup E strUVFName iBitSize bKeepRaw _ _ hser hres

/-- C2: two fatal runs that return `false` without the clean-up of the claim.
With the final `uvfFile.Create()` failing (`volume.uvf`, size `(2,2,2)`, 8 bit, flat
path) no `Close` is ever called on the container; with the invalid bit width 32 the
raw file has been created and is neither deleted nor is the container closed. -/
theorem CreateUVFFile_fatal_without_cleanup :
    ((CreateUVFFile { sampleEnv with uvfCreateOk := false } "volume.uvf" ⟨2, 2, 2⟩ 8 false 32
        false false).1 = false ∧
      Event.uvfCreate ∈ (CreateUVFFile { sampleEnv with uvfCreateOk := false } "volume.uvf"
        ⟨2, 2, 2⟩ 8 false 32 false false).2 ∧
      Event.uvfClose ∉ (CreateUVFFile { sampleEnv with uvfCreateOk := false } "volume.uvf"
        ⟨2, 2, 2⟩ 8 false 32 false false).2) ∧
    CreateUVFFile sampleEnv "volume.uvf" ⟨2, 2, 2⟩ 32 false 32 false false
      = (false, [Event.rawCreate "volume.raw" 32, Event.tError "Invalid bitsize"]) := by
  refine ⟨⟨by decide, by decide, by decide⟩, by decide⟩

end DataSource
